import Mathlib

/-!
Verification of the zeroclaw service-lifecycle helpers.

Strings from the Rust sources are modelled as `List Char`.  External
effects (subprocess outcomes, filesystem contents, the clock, the home
directory) are passed as explicit parameters, and each Rust function is
translated into a pure Lean function over those parameters.
-/

/-- Boolean test that the first list is a prefix of the second. -/
def isPrefixL : List Char → List Char → Bool
  | [], _ => true
  | _ :: _, [] => false
  | x :: s, y :: t => if x = y then isPrefixL s t else false

/-- Boolean substring containment, mirroring Rust `str::contains` for
literal needles: the needle occurs as a contiguous run in the haystack. -/
def containsSeq (needle : List Char) : List Char → Bool
  | [] => isPrefixL needle []
  | x :: t => if isPrefixL needle (x :: t) then true else containsSeq needle t

theorem isPrefixL_append (p a b : List Char) (h : isPrefixL p a = true) :
    isPrefixL p (a ++ b) = true := by
  induction p generalizing a with
  | nil => rfl
  | cons x s ih =>
    cases a with
    | nil => simp [isPrefixL] at h
    | cons y t =>
      by_cases hxy : x = y
      · subst hxy
        simp [isPrefixL] at h ⊢
        exact ih t h
      · simp [isPrefixL, hxy] at h

/-- Unicode white-space test matching Rust `char::is_whitespace`
(the Unicode White_Space property). -/
def rustIsWhitespace (c : Char) : Bool :=
  c.toNat = 0x20 ∨ (0x9 ≤ c.toNat ∧ c.toNat ≤ 0xD) ∨ c.toNat = 0x85 ∨
    c.toNat = 0xA0 ∨ c.toNat = 0x1680 ∨ (0x2000 ≤ c.toNat ∧ c.toNat ≤ 0x200A) ∨
    c.toNat = 0x2028 ∨ c.toNat = 0x2029 ∨ c.toNat = 0x202F ∨
    c.toNat = 0x205F ∨ c.toNat = 0x3000

/-- Rust `str::trim_end`: drop trailing white-space characters. -/
def rustTrimEnd (s : List Char) : List Char :=
  (s.reverse.dropWhile rustIsWhitespace).reverse

/-- Rust `str::trim_start`: drop leading white-space characters. -/
def rustTrimStart (s : List Char) : List Char :=
  s.dropWhile rustIsWhitespace

/-- Rust `str::trim`: drop white-space on both ends. -/
def rustTrim (s : List Char) : List Char :=
  rustTrimStart (rustTrimEnd s)

/-- ASCII lower-casing of one character, as in Rust
`str::to_ascii_lowercase`. -/
def asciiLower (c : Char) : Char :=
  if 0x41 ≤ c.toNat ∧ c.toNat ≤ 0x5A then Char.ofNat (c.toNat + 0x20) else c

/-- Embedding of `truncate_with_ellipsis` from `src/util.rs`:
`char_indices().nth(max_chars)` is `Some` exactly when the string has more
than `max_chars` characters, in which case the first `max_chars` characters
are kept, trailing white-space is trimmed, and "..." is appended. -/
def truncate_with_ellipsis (s : List Char) (maxChars : Nat) : List Char :=
  if maxChars < s.length then rustTrimEnd (s.take maxChars) ++ "...".data
  else s

/-- Character used in the plist template and escaping: the ampersand. -/
def ampChar : Char := Char.ofNat 38

/-- The less-than character. -/
def ltChar : Char := Char.ofNat 60

/-- The greater-than character. -/
def gtChar : Char := Char.ofNat 62

/-- The double-quote character. -/
def quoteChar : Char := Char.ofNat 34

/-- The apostrophe character. -/
def aposChar : Char := Char.ofNat 39

/-- The backslash character. -/
def backslashChar : Char := Char.ofNat 92

/-- Rust `str::replace` with a single-character pattern: every occurrence
of the character is replaced by the replacement string. -/
def replaceChar (c : Char) (rep : List Char) : List Char → List Char
  | [] => []
  | x :: t => (if x = c then rep else [x]) ++ replaceChar c rep t

/-- Embedding of `xml_escape` from `src/service/mod.rs`: five sequential
single-character replacements, ampersand first. -/
def xml_escape (s : List Char) : List Char :=
  replaceChar aposChar ("&apos;".data)
    (replaceChar quoteChar ("&quot;".data)
      (replaceChar gtChar ("&gt;".data)
        (replaceChar ltChar ("&lt;".data)
          (replaceChar ampChar ("&amp;".data) s))))

/-- Specification-side escaping of one character: each of the five XML
special characters maps to its entity, everything else to itself. -/
def escapeCharSpec (x : Char) : List Char :=
  if x = ampChar then "&amp;".data
  else if x = ltChar then "&lt;".data
  else if x = gtChar then "&gt;".data
  else if x = quoteChar then "&quot;".data
  else if x = aposChar then "&apos;".data
  else [x]

/-- Specification-side escaping of a whole string: character-wise
application of `escapeCharSpec`, in order. -/
def xmlEscapeSpec : List Char → List Char
  | [] => []
  | x :: t => escapeCharSpec x ++ xmlEscapeSpec t

theorem replaceChar_append (c : Char) (rep a b : List Char) :
    replaceChar c rep (a ++ b) = replaceChar c rep a ++ replaceChar c rep b := by
  induction a with
  | nil => rfl
  | cons x t ih => simp [replaceChar, ih]

theorem xml_escape_append (a b : List Char) :
    xml_escape (a ++ b) = xml_escape a ++ xml_escape b := by
  simp [xml_escape, replaceChar_append]

theorem xml_escape_single (x : Char) : xml_escape [x] = escapeCharSpec x := by
  by_cases h1 : x = ampChar
  · subst h1; decide
  by_cases h2 : x = ltChar
  · subst h2; decide
  by_cases h3 : x = gtChar
  · subst h3; decide
  by_cases h4 : x = quoteChar
  · subst h4; decide
  by_cases h5 : x = aposChar
  · subst h5; decide
  simp [xml_escape, replaceChar, escapeCharSpec, h1, h2, h3, h4, h5]

/-- C6: xml_escape replaces each occurrence of the five XML special
characters by its entity, character by character and in order, leaves all
other characters unchanged, and never escapes the ampersands introduced by
the escaping itself. -/
theorem c6_xml_escape (s : List Char) : xml_escape s = xmlEscapeSpec s := by
  induction s with
  | nil => rfl
  | cons x t ih =>
    calc xml_escape (x :: t)
        = xml_escape [x] ++ xml_escape t := xml_escape_append [x] t
      _ = escapeCharSpec x ++ xmlEscapeSpec t := by rw [xml_escape_single, ih]
      _ = xmlEscapeSpec (x :: t) := rfl

/-- C1 counterexample: when the first N characters end in white-space the
result is not the first N characters followed by "...": the code trims the
white-space first. -/
theorem c1_truncate_counterexample :
    truncate_with_ellipsis ("a b".data) 2 ≠ ("a b".data.take 2) ++ "...".data := by
  decide

/-- C1 (amended): truncate_with_ellipsis returns the input unchanged when
its length is at most the limit; when the length exceeds the limit it
returns the first N characters with trailing white-space removed followed
by "..."; truncating a non-empty string at limit 0 yields exactly "...". -/
theorem c1_truncate_amended (s : List Char) (n : Nat) :
    (s.length ≤ n → truncate_with_ellipsis s n = s) ∧
    (n < s.length →
      truncate_with_ellipsis s n = rustTrimEnd (s.take n) ++ "...".data) ∧
    (s ≠ [] → truncate_with_ellipsis s 0 = "...".data) := by
  refine ⟨fun h => ?_, fun h => ?_, fun h => ?_⟩
  · simp [truncate_with_ellipsis, Nat.not_lt.mpr h]
  · simp [truncate_with_ellipsis, h]
  · have hl : 0 < s.length := List.length_pos.mpr h
    simp [truncate_with_ellipsis, hl, rustTrimEnd]

/-- C1 witness: the amended statement evaluated on concrete inputs. -/
theorem c1_truncate_amended_witness :
    truncate_with_ellipsis ("hello world".data) 5
        = rustTrimEnd ("hello world".data.take 5) ++ "...".data ∧
    truncate_with_ellipsis ("hello".data) 0 = "...".data :=
  ⟨(c1_truncate_amended ("hello world".data) 5).2.1 (by decide),
   (c1_truncate_amended ("hello".data) 0).2.2 (by decide)⟩

/-- Access-denied detection from `install_windows`: lower-case the error
text (ASCII case folding, as in Rust `to_ascii_lowercase`) and look for
"access is denied" or one of the two Spanish localized equivalents. -/
def accessDenied (e : List Char) : Bool :=
  let lower := e.map asciiLower
  containsSeq ("access is denied".data) lower ∨
    containsSeq ("acceso denegado".data) lower ∨
    containsSeq ("permiso denegado".data) lower

/-- Which installation mechanism ended up active after a Windows install. -/
inductive InstallMode where
  | task
  | registry
deriving DecidableEq

/-- Trace of one `install_windows` run: whether the wrapper script was
written, whether creation was retried at run level LIMITED, whether the
startup-registry Run key write was attempted, and the final result. -/
structure WinInstallTrace where
  wrapperWritten : Bool
  triedLimited : Bool
  wroteRegistry : Bool
  result : Except (List Char) InstallMode

/-- Registry fallback tail of `install_windows`: the Run key write is
attempted; its error, if any, propagates as the overall result. -/
def finishRegistry (tl : Bool) (reg : Except (List Char) Unit) : WinInstallTrace :=
  match reg with
  | Except.ok _ => ⟨true, tl, true, Except.ok InstallMode.registry⟩
  | Except.error e2 => ⟨true, tl, true, Except.error e2⟩

/-- Embedding of `install_windows` from `src/service/mod.rs`, parameterized
by the outcomes of the three external steps: scheduled-task creation at run
level HIGHEST, creation at run level LIMITED, and the registry Run-key
write.  The wrapper script is written to disk before any of them. -/
def install_windows (hi lo reg : Except (List Char) Unit) : WinInstallTrace :=
  match hi with
  | Except.ok _ => ⟨true, false, false, Except.ok InstallMode.task⟩
  | Except.error e =>
    if accessDenied e then
      match lo with
      | Except.ok _ => ⟨true, true, false, Except.ok InstallMode.task⟩
      | Except.error _ => finishRegistry true reg
    else finishRegistry false reg

/-- C2: on Windows install, an access-denied failure of the HIGHEST task
creation triggers exactly one retry at LIMITED; a non-matching failure
triggers no retry; whenever task creation ultimately fails the
startup-registry Run key is written (the wrapper script already being on
disk) and install succeeds when that registry write succeeds. -/
theorem c2_install_windows (e e2 : List Char) (lo reg : Except (List Char) Unit) :
    (install_windows (Except.ok ()) lo reg
      = ⟨true, false, false, Except.ok InstallMode.task⟩) ∧
    (accessDenied e = true →
      (install_windows (Except.error e) lo reg).triedLimited = true) ∧
    (accessDenied e = false →
      (install_windows (Except.error e) lo reg).triedLimited = false) ∧
    (accessDenied e = false →
      install_windows (Except.error e) lo (Except.ok ())
        = ⟨true, false, true, Except.ok InstallMode.registry⟩) ∧
    (accessDenied e = true →
      install_windows (Except.error e) (Except.error e2) (Except.ok ())
        = ⟨true, true, true, Except.ok InstallMode.registry⟩) ∧
    (accessDenied e = true →
      install_windows (Except.error e) (Except.ok ()) reg
        = ⟨true, true, false, Except.ok InstallMode.task⟩) := by
  refine ⟨rfl, fun h => ?_, fun h => ?_, fun h => ?_, fun h => ?_, fun h => ?_⟩
  · cases lo <;> cases reg <;> simp [install_windows, finishRegistry, h]
  · cases lo <;> cases reg <;> simp [install_windows, finishRegistry, h]
  · simp [install_windows, finishRegistry, h]
  · simp [install_windows, finishRegistry, h]
  · simp [install_windows, h]

/-- C2 witness: the theorem applied to a concrete access-denied error text
and a concrete unrelated error text. -/
theorem c2_install_windows_witness :
    accessDenied ("ERROR: Access is denied.".data) = true ∧
    install_windows (Except.error ("ERROR: Access is denied.".data))
        (Except.error ("still denied".data)) (Except.ok ())
      = ⟨true, true, true, Except.ok InstallMode.registry⟩ ∧
    accessDenied ("the task XML is malformed".data) = false ∧
    install_windows (Except.error ("the task XML is malformed".data))
        (Except.ok ()) (Except.ok ())
      = ⟨true, false, true, Except.ok InstallMode.registry⟩ :=
  ⟨by decide,
   (c2_install_windows ("ERROR: Access is denied.".data) ("still denied".data)
      (Except.error ("still denied".data)) (Except.ok ())).2.2.2.2.1 (by decide),
   by decide,
   (c2_install_windows ("the task XML is malformed".data) []
      (Except.ok ()) (Except.ok ())).2.2.2.1 (by decide)⟩

/-- Embedding of `macos_service_file` from `src/service/mod.rs`: resolve
the home directory (or fail) and append the LaunchAgents plist path. -/
def macos_service_file (home : Option (List Char)) : Except (List Char) (List Char) :=
  match home with
  | some h => Except.ok (h ++ "/Library/LaunchAgents/com.zeroclaw.daemon.plist".data)
  | none => Except.error ("Could not find home directory".data)

/-- Embedding of the macOS branch of `stop` from `src/service/mod.rs`:
the plist path is resolved first (propagating its error); the results of
the two launchctl invocations are discarded. -/
def stop_macos (home : Option (List Char))
    (stopRes unloadRes : Except (List Char) Unit) : Except (List Char) Unit :=
  match macos_service_file home with
  | Except.error e => Except.error e
  | Except.ok _ =>
    let _ := stopRes
    let _ := unloadRes
    Except.ok ()

/-- C3 counterexample: when the home directory cannot be resolved, Stop on
macOS returns an error, so it does not always return success. -/
theorem c3_stop_counterexample :
    stop_macos none (Except.ok ()) (Except.ok ())
      = Except.error ("Could not find home directory".data) := rfl

/-- C3 (amended): whenever the home directory resolves, Stop on macOS
returns success for every outcome of the external launchctl stop and
unload invocations, both failures being swallowed. -/
theorem c3_stop_amended (h : List Char) (stopRes unloadRes : Except (List Char) Unit) :
    stop_macos (some h) stopRes unloadRes = Except.ok () := rfl

/-- Which mechanism the Windows Start operation ended up using. -/
inductive StartMode where
  | task
  | registry
deriving DecidableEq

/-- Embedding of the Windows branch of `start` from `src/service/mod.rs`,
parameterized by the outcome of running the scheduled task, whether the
startup-registry Run key exists, and the outcome of the detached wrapper
launch. -/
def start_windows (runTask : Except (List Char) Unit) (runKey : Bool)
    (detach : Except (List Char) Unit) : Except (List Char) StartMode :=
  match runTask with
  | Except.ok _ => Except.ok StartMode.task
  | Except.error e =>
    if runKey then
      match detach with
      | Except.ok _ => Except.ok StartMode.registry
      | Except.error d => Except.error d
    else Except.error e

/-- C8 counterexample: with the Run key present but the detached wrapper
launch failing, Start returns the launch error instead of reporting
success. -/
theorem c8_start_counterexample :
    start_windows (Except.error ("task run failed".data)) true
        (Except.error ("wrapper launch failed".data))
      = Except.error ("wrapper launch failed".data) := rfl

/-- C8 (amended): Start runs the scheduled task and succeeds in task mode
when that works; on task failure with the Run key present it launches the
wrapper detached, succeeding in registry mode when the launch succeeds and
returning the launch error when it fails; on task failure with no Run key
it returns the original task-run error unchanged. -/
theorem c8_start_amended (e d : List Char) (b : Bool)
    (det : Except (List Char) Unit) :
    start_windows (Except.ok ()) b det = Except.ok StartMode.task ∧
    start_windows (Except.error e) false det = Except.error e ∧
    start_windows (Except.error e) true (Except.ok ())
      = Except.ok StartMode.registry ∧
    start_windows (Except.error e) true (Except.error d) = Except.error d :=
  ⟨rfl, rfl, rfl, rfl⟩

/-- Embedding of `run_capture` from `src/service/mod.rs` for a command
that spawned successfully: the captured stdout is returned, replaced by
the captured stderr when stdout trims to the empty string; the result is
Ok regardless of the exit status. -/
def run_capture (stdout stderr : List Char) (exitSuccess : Bool) :
    Except (List Char) (List Char) :=
  let _ := exitSuccess
  let text := stdout
  let text := if (rustTrim text).isEmpty then stderr else text
  Except.ok text

/-- C9 counterexample: a whitespace-only (hence non-empty) stdout still
falls back to stderr, so the fallback does not happen exactly when stdout
is empty. -/
theorem c9_capture_counterexample :
    run_capture [' '] ("boom".data) true = Except.ok ("boom".data) ∧
    ("boom".data : List Char) ≠ [' '] :=
  ⟨rfl, by decide⟩

/-- C9 (amended): run_capture returns stdout, falling back to stderr
exactly when stdout trims to the empty string (empty or all white-space),
and returns Ok regardless of the exit status. -/
theorem c9_capture_amended (stdout stderr : List Char) (ex : Bool) :
    ((rustTrim stdout).isEmpty = true →
      run_capture stdout stderr ex = Except.ok stderr) ∧
    ((rustTrim stdout).isEmpty = false →
      run_capture stdout stderr ex = Except.ok stdout) ∧
    run_capture stdout stderr ex = run_capture stdout stderr (!ex) := by
  refine ⟨fun h => ?_, fun h => ?_, rfl⟩ <;> simp [run_capture, h]

/-- C9 witness: the amended statement evaluated on concrete captures. -/
theorem c9_capture_amended_witness :
    run_capture [] ("fallback".data) true = Except.ok ("fallback".data) ∧
    run_capture ("out".data) ("fallback".data) true = Except.ok ("out".data) :=
  ⟨(c9_capture_amended [] ("fallback".data) true).1 (by decide),
   (c9_capture_amended ("out".data) ("fallback".data) true).2.1 (by decide)⟩

/-- Consume digits: require exactly n leading digits, return the rest. -/
def takeDigits : Nat → List Char → Option (List Char)
  | 0, s => some s
  | _ + 1, [] => none
  | n + 1, c :: t => if c.isDigit then takeDigits n t else none

/-- Consume one expected character, returning the rest. -/
def expectC (c : Char) : List Char → Option (List Char)
  | [] => none
  | x :: t => if x = c then some t else none

/-- Consume an optional fractional-seconds part: a dot must be followed by
at least one digit. -/
def parseFrac : List Char → Option (List Char)
  | [] => some []
  | x :: t =>
    if x = '.' then
      if (t.takeWhile Char.isDigit).isEmpty then none
      else some (t.dropWhile Char.isDigit)
    else some (x :: t)

/-- Consume the HH:MM part of a numeric UTC offset. -/
def offsetTail (t : List Char) : Option (List Char) :=
  ((takeDigits 2 t).bind (expectC ':')).bind (takeDigits 2)

/-- Consume an RFC 3339 offset: Z, or a sign followed by HH:MM. -/
def parseOffset : List Char → Option (List Char)
  | [] => none
  | x :: t =>
    if x = 'Z' then some t
    else if x = '+' then offsetTail t
    else if x = '-' then offsetTail t
    else none

/-- Modelled from the spec: validity of an RFC 3339 date-time string
(the shape produced by the external chrono to_rfc3339 call, which is not
part of this repository): full date, T, time with optional fractional
seconds, and a Z or signed HH:MM offset. -/
def isRfc3339 (s : List Char) : Bool :=
  let r := (takeDigits 4 s).bind (expectC '-')
  let r := r.bind (takeDigits 2)
  let r := r.bind (expectC '-')
  let r := r.bind (takeDigits 2)
  let r := r.bind (expectC 'T')
  let r := r.bind (takeDigits 2)
  let r := r.bind (expectC ':')
  let r := r.bind (takeDigits 2)
  let r := r.bind (expectC ':')
  let r := r.bind (takeDigits 2)
  let r := r.bind parseFrac
  let r := r.bind parseOffset
  match r with
  | some [] => true
  | _ => false

/-- Crash record from `src/resilience.rs`: a timestamp and an error text. -/
structure CrashInfo where
  timestamp : List Char
  error : List Char
deriving DecidableEq

/-- JSON documents at the level of the serde_json abstract syntax tree;
the serde string round trip is modelled by storing the tree itself as the
file content. -/
inductive Json where
  | str (s : List Char)
  | obj (fields : List (List Char × Json))
  | null

/-- Field lookup in a JSON object, first binding wins. -/
def lookupField : List (List Char × Json) → List Char → Option Json
  | [], _ => none
  | (k, v) :: t, key => if k = key then some v else lookupField t key

/-- Serialization of a CrashInfo as serde_json derives it: an object with
the two string fields timestamp and error. -/
def crashToJson (ts err : List Char) : Json :=
  Json.obj [("timestamp".data, Json.str ts), ("error".data, Json.str err)]

/-- Deserialization of a CrashInfo: both fields must be present as
strings, otherwise parsing fails. -/
def crashFromJson : Json → Option CrashInfo
  | Json.obj fields =>
    match lookupField fields ("timestamp".data), lookupField fields ("error".data) with
    | some (Json.str ts), some (Json.str e) => some ⟨ts, e⟩
    | _, _ => none
  | _ => none

/-- Embedding of `record_crash` from `src/resilience.rs`: the crash file
is overwritten with the serialized record, whatever it held before.  The
timestamp is the clock reading passed in by the caller (chrono
Utc::now().to_rfc3339() in the source). -/
def record_crash (now err : List Char) (file : Option Json) : Option Json :=
  let _ := file
  some (crashToJson now err)

/-- Embedding of `consume_crash` from `src/resilience.rs`: if the crash
file exists it is read and then deleted before parsing, so the file is
gone afterwards whether or not parsing succeeds; the parse result is
returned.  The returned pair is (parse result, new file content). -/
def consume_crash (file : Option Json) : Option CrashInfo × Option Json :=
  match file with
  | none => (none, none)
  | some j => (crashFromJson j, none)

/-- C4: recording a crash and consuming it returns the recorded error text
together with the clock timestamp, which is RFC 3339 whenever the clock
produced an RFC 3339 string; a second consume with no intervening record
returns nothing because the first consume deleted the file. -/
theorem c4_crash_roundtrip (now err : List Char) (file : Option Json)
    (h : isRfc3339 now = true) :
    ((consume_crash (record_crash now err file)).fst = some ⟨now, err⟩) ∧
    (∀ info, (consume_crash (record_crash now err file)).fst = some info →
      info.error = err ∧ isRfc3339 info.timestamp = true) ∧
    ((consume_crash ((consume_crash (record_crash now err file)).snd)).fst = none) := by
  have h1 : (consume_crash (record_crash now err file)).fst
      = some (⟨now, err⟩ : CrashInfo) := rfl
  refine ⟨h1, ?_, rfl⟩
  intro info hinfo
  rw [h1] at hinfo
  obtain rfl : info = (⟨now, err⟩ : CrashInfo) := (Option.some.inj hinfo).symm
  exact ⟨rfl, h⟩

/-- C4 witness: the round trip evaluated on a concrete RFC 3339 timestamp
and error text. -/
theorem c4_crash_roundtrip_witness :
    isRfc3339 ("2026-10-12T00:00:00+00:00".data) = true ∧
    (consume_crash (record_crash ("2026-10-12T00:00:00+00:00".data)
        ("boom".data) none)).fst
      = some ⟨"2026-10-12T00:00:00+00:00".data, "boom".data⟩ :=
  ⟨by decide,
   (c4_crash_roundtrip ("2026-10-12T00:00:00+00:00".data) ("boom".data) none
      (by decide)).1⟩

/-- C10: when the crash file exists and is readable, consume_crash deletes
it before parsing — the file is gone afterwards even when the content does
not parse as a CrashInfo, in which case None is returned. -/
theorem c10_consume_corrupt (j : Json) (h : crashFromJson j = none) :
    (consume_crash (some j)).snd = none ∧ (consume_crash (some j)).fst = none :=
  ⟨rfl, by simp [consume_crash, h]⟩

/-- C10 witness: a concrete corrupt crash file is deleted and silently
discarded. -/
theorem c10_consume_corrupt_witness :
    (consume_crash (some (Json.str ("not a crash record".data)))).snd = none ∧
    (consume_crash (some (Json.str ("not a crash record".data)))).fst = none :=
  c10_consume_corrupt (Json.str ("not a crash record".data)) rfl

/-- Header written by `report_task` from `src/resilience.rs` when the
resilience log does not exist yet. -/
def resilienceHeader : List Char :=
  "# Resilience Tasks\n\nThis file tracks critical failures and auto-recovery events.\n".data

/-- One incident entry of the resilience log, classified FATAL when the
detail text contains the substring "fatal" and RECOVERY otherwise. -/
def taskEntry (title detail ts : List Char) : List Char :=
  "\n## [".data ++
    (if containsSeq ("fatal".data) detail then "FATAL".data else "RECOVERY".data) ++
    "] ".data ++ title ++ "\n\n- **Time**: ".data ++ ts ++
    "\n- **Detail**: ".data ++ detail ++ "\n\n---".data

/-- Embedding of `report_task` from `src/resilience.rs`: start from the
existing file content, or from the header when the file does not exist,
append one entry, and write the result back. -/
def report_task (title detail ts : List Char) (file : Option (List Char)) :
    Option (List Char) :=
  some ((match file with
    | some c => c
    | none => resilienceHeader) ++ taskEntry title detail ts)

/-- C7: starting from no resilience log, two report_task calls produce a
file holding exactly one header block followed by the two incident entries
in call order; the header is written only on first creation. -/
theorem c7_report_task (t1 d1 s1 t2 d2 s2 : List Char) :
    report_task t2 d2 s2 (report_task t1 d1 s1 none)
      = some (resilienceHeader ++ (taskEntry t1 d1 s1 ++ taskEntry t2 d2 s2)) := by
  simp [report_task, List.append_assoc]

/-- Service label constant SERVICE_LABEL from `src/service/mod.rs`. -/
def serviceLabel : List Char := "com.zeroclaw.daemon".data

/-- Opening chunk of the plist template of `install_macos`, up to the
label substitution.  The template is a Rust raw string, so each two-byte
backslash-quote sequence of the source is two literal output characters. -/
def plistHead : List Char :=
  "<?xml version=\\\"1.0\\\" encoding=\\\"UTF-8\\\"?>\n<!DOCTYPE plist PUBLIC \\\"-//Apple//DTD PLIST 1.0//EN\\\" \\\"http://www.apple.com/DTDs/PropertyList-1.0.dtd\\\">\n<plist version=\\\"1.0\\\">\n<dict>\n  <key>Label</key>\n  <string>".data

/-- Template chunk between the label and the executable path. -/
def plistMid1 : List Char :=
  "</string>\n  <key>ProgramArguments</key>\n  <array>\n    <string>".data

/-- Template chunk between the executable path and the stdout log path. -/
def plistMid2 : List Char :=
  "</string>\n    <string>daemon</string>\n  </array>\n  <key>RunAtLoad</key>\n  <true/>\n  <key>KeepAlive</key>\n  <true/>\n  <key>StandardOutPath</key>\n  <string>".data

/-- Template chunk between the stdout and stderr log paths. -/
def plistMid3 : List Char :=
  "</string>\n  <key>StandardErrorPath</key>\n  <string>".data

/-- Closing chunk of the plist template. -/
def plistTail : List Char := "</string>\n</dict>\n</plist>\n".data

/-- Plist document produced by `install_macos` for the given executable
and log paths: the template with the label and the XML-escaped paths
substituted in. -/
def plistDoc (exe so se : List Char) : List Char :=
  plistHead ++ serviceLabel ++ plistMid1 ++ xml_escape exe ++ plistMid2 ++
    xml_escape so ++ plistMid3 ++ xml_escape se ++ plistTail

/-- First two lines of the generated plist document: the XML declaration
and the DOCTYPE line, with the literal backslashes of the raw string. -/
def plistFirstTwo : List Char :=
  "<?xml version=\\\"1.0\\\" encoding=\\\"UTF-8\\\"?>\n<!DOCTYPE plist PUBLIC \\\"-//Apple//DTD PLIST 1.0//EN\\\" \\\"http://www.apple.com/DTDs/PropertyList-1.0.dtd\\\">\n".data

/-- Scan tracking the previous character: every double quote must be
immediately preceded by a backslash. -/
def quotesBackslashedFrom (prev : Char) : List Char → Bool
  | [] => true
  | c :: t =>
    (if c = quoteChar then decide (prev = backslashChar) else true) &&
      quotesBackslashedFrom c t

/-- Every double quote in the list is immediately preceded by a literal
backslash character (so a quote cannot be the first character). -/
def quotesBackslashed (s : List Char) : Bool :=
  quotesBackslashedFrom (Char.ofNat 0) s

/-- C5: for every executable path and log paths, the generated macOS plist
document begins with the XML declaration and DOCTYPE lines in which every
double-quote character is preceded by a literal backslash character,
because the Rust template is a raw string in which a backslash-quote pair
is two literal characters. -/
theorem c5_plist_backslashes (exe so se : List Char) :
    isPrefixL plistFirstTwo (plistDoc exe so se) = true ∧
    quotesBackslashed plistFirstTwo = true := by
  constructor
  · unfold plistDoc
    exact isPrefixL_append _ _ _ (isPrefixL_append _ _ _ (isPrefixL_append _ _ _
      (isPrefixL_append _ _ _ (isPrefixL_append _ _ _ (isPrefixL_append _ _ _
        (isPrefixL_append _ _ _ (isPrefixL_append _ _ _ (by decide))))))))
  · decide
